import Mathlib

/-!
Shallow embedding of `lms_bluetooth_control.py` (class `BluetoothPlayer` and the
module-level player selection / main loop), for checking the specification's
claims about the bidirectional play/pause state synchronizer.

Modelling conventions:
* The two asyncio futures `lms_pause_watch` / `lms_play_watch` are modelled as
  `Option Watch` slots; a `Watch` carries a fresh numeric id (object identity of
  the Python future), the predicate it was created with (symbolically), and its
  lifecycle state (`pending` / `resolved` / `cancelled`).  `Future.done()` is
  true exactly when the state is not `pending`.
* Each handler is a pure function from the values it reads (LMS mode, LMS url,
  bluetooth status, device object path) and the watch-slot state to an
  `Outcome`: the new watch-slot state, the list of commands issued to the two
  endpoints, and an optional uncaught Python exception escaping the handler.
* `await self.lms_pause_watch` splits a handler in two: the arming step
  (`pause_watch` / `play_watch` guards and slot assignment) and the
  continuation that runs when the future resolves (`on_pause_watch_resolved` /
  `on_play_watch_resolved`).
* Python string operations (`split`, `in`, `replace`, `==`) are modelled on
  `List Char` by `splitFirst`, `containsPat`, `pyReplaceChar` and `String` `==`.
-/

namespace LmsBt

/-- Python `pat` prefix test on character lists: `startsWithPat pat s` is true
when `s` begins with `pat`. -/
def startsWithPat : List Char → List Char → Bool
  | [], _ => true
  | _ :: _, [] => false
  | p :: ps, c :: cs => p == c && startsWithPat ps cs

/-- First occurrence split, as in Python `s.split(pat)` restricted to the first
hit: returns the segment before the first occurrence of `pat` and the rest of
the string after it, or `none` when `pat` does not occur in `s`. -/
def splitFirst (pat : List Char) : List Char → Option (List Char × List Char)
  | [] => none
  | c :: cs =>
    if startsWithPat pat (c :: cs) then some ([], (c :: cs).drop pat.length)
    else
      match splitFirst pat cs with
      | some (pre, post) => some (c :: pre, post)
      | none => none

/-- Python `pat in s` substring test (for non-empty `pat`). -/
def containsPat (pat : List Char) : List Char → Bool
  | [] => false
  | c :: cs => startsWithPat pat (c :: cs) || containsPat pat cs

/-- Python `s.split(pat)[1]`: the segment between the first and second
occurrence of `pat` (the rest of the string when `pat` occurs only once),
`none` when `pat` does not occur (the `[1]` access would raise `IndexError`). -/
def pyPart1 (pat s : List Char) : Option (List Char) :=
  match splitFirst pat s with
  | none => none
  | some (_, post) =>
    match splitFirst pat post with
    | none => some post
    | some (pre2, _) => some pre2

/-- Python `s.replace(a, b)` for single characters. -/
def pyReplaceChar (a b : Char) (s : List Char) : List Char :=
  s.map (fun c => if c == a then b else c)

/-- Lines 170-172 of `lms_bluetooth_control.py`:
`mac_address.split("dev_")[1].replace("_", ":")` applied to the device object
path; `none` models the `IndexError` raised when the path has no `dev_`. -/
def macFromPathStr (path : String) : Option String :=
  (pyPart1 ("dev_".data) path.data).map (fun cs => String.mk (pyReplaceChar '_' ':' cs))

/-- Lifecycle of an asyncio future used as a property watch. -/
inductive WatchState
  | pending
  | resolved
  | cancelled
  deriving DecidableEq

/-- The predicate a watch was created with, symbolically: the code only ever
creates `lambda x: x != "play"` (pause watch) and `lambda x: x == "play"`
(play watch). -/
inductive WatchPred
  | modeNotPlay
  | modeIsPlay
  deriving DecidableEq

/-- A property-watch future: identity, predicate, lifecycle state. -/
structure Watch where
  id : Nat
  pred : WatchPred
  state : WatchState
  deriving DecidableEq

/-- Python `future.done()`: true when resolved or cancelled. -/
def Watch.done (w : Watch) : Bool := w.state != WatchState.pending

/-- Semantics of the symbolic predicates over the LMS mode string. -/
def WatchPred.holds : WatchPred → String → Bool
  | WatchPred.modeNotPlay, m => m != "play"
  | WatchPred.modeIsPlay, m => m == "play"

/-- The synchronizer's mutable watch-slot state (`self.lms_pause_watch`,
`self.lms_play_watch`) plus a counter supplying fresh future identities. -/
structure BTState where
  lms_pause_watch : Option Watch
  lms_play_watch : Option Watch
  nextId : Nat
  deriving DecidableEq

/-- Commands a handler can issue: `loadUrl`, `play`, `pause` go to the LMS
sink; `srcPause`, `srcPlay` are `call_pause()` / `call_play()` on the
bluetooth source's MediaPlayer1 interface. -/
inductive Cmd
  | loadUrl (url : String)
  | play
  | pause
  | srcPause
  | srcPlay
  deriving DecidableEq

/-- Result of running one handler: new watch slots, commands issued in order,
and an uncaught exception escaping the handler, if any. -/
structure Outcome where
  state : BTState
  cmds : List Cmd
  error : Option String
  deriving DecidableEq

/-- Arming guard of `BluetoothPlayer.pause_watch` (lines 103-114): a fresh
pause watch (predicate `x != "play"`) is created only when the slot is empty
or its future is done; otherwise the call is a no-op. -/
def pause_watch (s : BTState) : BTState :=
  match s.lms_pause_watch with
  | none =>
      { s with lms_pause_watch := some ⟨s.nextId, WatchPred.modeNotPlay, WatchState.pending⟩,
               nextId := s.nextId + 1 }
  | some w =>
      if w.done then
        { s with lms_pause_watch := some ⟨s.nextId, WatchPred.modeNotPlay, WatchState.pending⟩,
                 nextId := s.nextId + 1 }
      else s

/-- Arming guard of `BluetoothPlayer.play_watch` (lines 116-127), exactly as
written: `if self.lms_play_watch is None or self.lms_pause_watch.done():` —
note the guard inspects the PAUSE watch's `done()` flag.  When the play slot
is non-empty and the pause slot is `None`, `None.done()` raises
`AttributeError`. -/
def play_watch (s : BTState) : Except String BTState :=
  if s.lms_play_watch.isNone then
    Except.ok { s with
      lms_play_watch := some ⟨s.nextId, WatchPred.modeIsPlay, WatchState.pending⟩,
      nextId := s.nextId + 1 }
  else
    match s.lms_pause_watch with
    | none => Except.error "AttributeError"
    | some pw =>
      if pw.done then
        Except.ok { s with
          lms_play_watch := some ⟨s.nextId, WatchPred.modeIsPlay, WatchState.pending⟩,
          nextId := s.nextId + 1 }
      else Except.ok s

/-- Lines 167-169: `if self.lms_play_watch and not self.lms_play_watch.done():
self.lms_play_watch.cancel()`. -/
def cancelLivePlayWatch (s : BTState) : BTState :=
  match s.lms_play_watch with
  | some w =>
      if !w.done then { s with lms_play_watch := some { w with state := WatchState.cancelled } }
      else s
  | none => s

/-- Lines 179-181: `if self.lms_pause_watch and not self.lms_pause_watch.done():
self.lms_pause_watch.cancel()`. -/
def cancelLivePauseWatch (s : BTState) : BTState :=
  match s.lms_pause_watch with
  | some w =>
      if !w.done then { s with lms_pause_watch := some { w with state := WatchState.cancelled } }
      else s
  | none => s

/-- `BluetoothPlayer.lms_play` (lines 165-175): cancel a live play watch,
derive the MAC address from the device object path (may raise `IndexError`),
issue `load` then `play` to the sink, then arm the pause watch. -/
def lms_play (devicePath : String) (s : BTState) : Outcome :=
  let s1 := cancelLivePlayWatch s
  match macFromPathStr devicePath with
  | none => { state := s1, cmds := [], error := some "IndexError" }
  | some mac =>
      { state := pause_watch s1,
        cmds := [Cmd.loadUrl ("wavin:bluealsa:DEV=" ++ mac), Cmd.play],
        error := none }

/-- `BluetoothPlayer.lms_pause` (lines 177-183): cancel a live pause watch,
issue `pause` to the sink, then arm the play watch (whose buggy guard may
raise `AttributeError` after the pause was already sent). -/
def lms_pause (s : BTState) : Outcome :=
  let s1 := cancelLivePauseWatch s
  match play_watch s1 with
  | Except.ok s2 => { state := s2, cmds := [Cmd.pause], error := none }
  | Except.error e => { state := s1, cmds := [Cmd.pause], error := some e }

/-- Status branch of `BluetoothPlayer.async_properties_changed`
(lines 144-152): dispatch on the new bluetooth status value. -/
def handle_status (devicePath : String) (status : String) (s : BTState) : Outcome :=
  if status == "paused" then lms_pause s
  else if status == "playing" then lms_play devicePath s
  else { state := s, cmds := [], error := none }

/-- `BluetoothPlayer.pause_if_playing` (lines 185-197), the continuation after
a pause watch resolves: re-read the LMS mode; if it is not `"play"`, re-read
the bluetooth status (`none` models `get_status` raising `DBusError`, which
this handler does NOT catch) and send `call_pause()` to the source only when
the status is `"playing"`. -/
def pause_if_playing (lmsMode : String) (srcStatus : Option String) (s : BTState) : Outcome :=
  if lmsMode != "play" then
    match srcStatus with
    | none => { state := s, cmds := [], error := some "DBusError" }
    | some st =>
        if st == "playing" then { state := s, cmds := [Cmd.srcPause], error := none }
        else { state := s, cmds := [], error := none }
  else { state := s, cmds := [], error := none }

/-- `BluetoothPlayer.play_if_paused` (lines 199-211): re-read the LMS mode; if
it is `"play"`, re-read the bluetooth status (uncaught `DBusError` modelled by
`none`) and send `call_play()` to the source only when the status is exactly
`"paused"`. -/
def play_if_paused (lmsMode : String) (srcStatus : Option String) (s : BTState) : Outcome :=
  if lmsMode == "play" then
    match srcStatus with
    | none => { state := s, cmds := [], error := some "DBusError" }
    | some st =>
        if st == "paused" then { state := s, cmds := [Cmd.srcPlay], error := none }
        else { state := s, cmds := [], error := none }
  else { state := s, cmds := [], error := none }

/-- The pause watch's future resolving (the `await self.lms_pause_watch` on
line 110 returning). -/
def resolvePauseWatch (s : BTState) : BTState :=
  match s.lms_pause_watch with
  | some w => { s with lms_pause_watch := some { w with state := WatchState.resolved } }
  | none => s

/-- The play watch's future resolving (the `await self.lms_play_watch` on
line 123 returning). -/
def resolvePlayWatch (s : BTState) : BTState :=
  match s.lms_play_watch with
  | some w => { s with lms_play_watch := some { w with state := WatchState.resolved } }
  | none => s

/-- Full pause-watch resolution path: the future resolves (line 110), then
`pause_if_playing` runs (line 112). -/
def on_pause_watch_resolved (lmsMode : String) (srcStatus : Option String)
    (s : BTState) : Outcome :=
  pause_if_playing lmsMode srcStatus (resolvePauseWatch s)

/-- Full play-watch resolution path: the future resolves (line 123), then
`play_if_paused` runs (line 125). -/
def on_play_watch_resolved (lmsMode : String) (srcStatus : Option String)
    (s : BTState) : Outcome :=
  play_if_paused lmsMode srcStatus (resolvePlayWatch s)

/-- Line 94 guard: `if self.lms_player.url and "wavin:bluealsa" in self.lms_player.url`. -/
def urlHasBluealsa : Option String → Bool
  | none => false
  | some u => containsPat ("wavin:bluealsa".data) u.data

/-- Lines 93-99 of `BluetoothPlayer.find_player`: when the LMS url is already a
bluealsa stream, arm a pause watch if the LMS mode is `"play"`, otherwise arm a
play watch (whose buggy guard may raise). -/
def find_player_rest (lmsMode : String) (lmsUrl : Option String) (s : BTState) : Outcome :=
  if urlHasBluealsa lmsUrl then
    if lmsMode == "play" then { state := pause_watch s, cmds := [], error := none }
    else
      match play_watch s with
      | Except.ok s2 => { state := s2, cmds := [], error := none }
      | Except.error e => { state := s, cmds := [], error := some e }
  else { state := s, cmds := [], error := none }

/-- Discovery-time initialization, lines 87-99 of `BluetoothPlayer.find_player`
(after the player proxy is set up): read the bluetooth status — `DBusError`
(`srcStatus = none`) is caught and treated as not playing; if the status is
`"playing"` run `lms_play` and return; otherwise fall through to the url/mode
check. -/
def find_player_init (srcStatus : Option String) (lmsMode : String) (lmsUrl : Option String)
    (devicePath : String) (s : BTState) : Outcome :=
  match srcStatus with
  | some st =>
      if st == "playing" then lms_play devicePath s
      else find_player_rest lmsMode lmsUrl s
  | none => find_player_rest lmsMode lmsUrl s

/-- A pysqueezebox player as the module-level code reads it: a name and a
power flag (refreshed by `async_update`). -/
structure Player where
  name : String
  power : Bool
  deriving DecidableEq

/-- `find_active_player` (lines 214-227): `None` when the server reports no
players at all; otherwise the first powered player, falling back to the
default-player lookup (`defaultLookup`, itself possibly `None`). -/
def find_active_player (players : List Player) (defaultLookup : Option Player) :
    Option Player :=
  if players.isEmpty then none
  else
    match players.find? (fun p => p.power) with
    | some p => some p
    | none => defaultLookup

/-- Startup half of `main` (lines 236-237): `assert player is not None` makes a
failed selection fatal (`AssertionError` stops the process). -/
def main_startup (players : List Player) (defaultLookup : Option Player) :
    Except String Player :=
  match find_active_player players defaultLookup with
  | none => Except.error "AssertionError"
  | some p => Except.ok p

/-- One iteration of the periodic recheck loop (lines 242-248), taking the
current value of the `player` variable and the world at this cycle: with
`player = None` (a previous recheck found no players) the `player.power` read
raises `AttributeError`; otherwise, when the player is powered off, `player`
is reassigned from `find_active_player`. -/
def recheck_cycle (player : Option Player) (players : List Player)
    (defaultLookup : Option Player) : Except String (Option Player) :=
  match player with
  | none => Except.error "AttributeError"
  | some p =>
      if !p.power then Except.ok (find_active_player players defaultLookup)
      else Except.ok (some p)

/-- Invariant of reachable states: any watch sitting in the pause slot was
created with the pause predicate. -/
def pauseSlotOk (s : BTState) : Bool :=
  match s.lms_pause_watch with
  | none => true
  | some w => w.pred == WatchPred.modeNotPlay

end LmsBt

namespace LmsBt

/-- A pattern that occurs nowhere in a string is never found by `splitFirst`. -/
theorem splitFirst_none (pat : List Char) :
    ∀ s : List Char, containsPat pat s = false → splitFirst pat s = none := by
  intro s
  induction s with
  | nil => intro _; rfl
  | cons c cs ih =>
      intro h
      unfold containsPat at h
      rw [Bool.or_eq_false_iff] at h
      unfold splitFirst
      rw [h.1, ih h.2]
      simp

/-- When the device path has no `dev_`, the address derivation raises. -/
theorem macFromPathStr_none (path : String)
    (h : containsPat ("dev_".data) path.data = false) :
    macFromPathStr path = none := by
  unfold macFromPathStr pyPart1
  rw [splitFirst_none _ _ h]
  rfl

/-- Cancelling the play watch leaves the pause slot alone. -/
theorem cancelLivePlayWatch_pause (s : BTState) :
    (cancelLivePlayWatch s).lms_pause_watch = s.lms_pause_watch := by
  rcases s with ⟨pw, plw, n⟩
  cases plw with
  | none => rfl
  | some w =>
      unfold cancelLivePlayWatch
      dsimp
      split <;> rfl

/-- Arming the pause watch leaves the play slot alone. -/
theorem pause_watch_play (s : BTState) :
    (pause_watch s).lms_play_watch = s.lms_play_watch := by
  rcases s with ⟨pw, plw, n⟩
  cases pw with
  | none => rfl
  | some w =>
      unfold pause_watch
      dsimp
      split <;> rfl

/-- After the arming step of `pause_watch`, the pause slot always holds a
pending watch with the pause predicate (given the slot invariant). -/
theorem pause_watch_pending (s : BTState) (h : pauseSlotOk s = true) :
    ∃ w : Watch, (pause_watch s).lms_pause_watch = some w
      ∧ w.pred = WatchPred.modeNotPlay ∧ w.state = WatchState.pending := by
  rcases s with ⟨pw, plw, n⟩
  cases pw with
  | none => exact ⟨⟨n, WatchPred.modeNotPlay, WatchState.pending⟩, rfl, rfl, rfl⟩
  | some w =>
      unfold pauseSlotOk at h
      dsimp at h
      unfold pause_watch
      dsimp
      cases hd : w.done with
      | true => exact ⟨⟨n, WatchPred.modeNotPlay, WatchState.pending⟩, by simp, rfl, rfl⟩
      | false =>
          refine ⟨w, by simp, ?_, ?_⟩
          · exact beq_iff_eq.mp h
          · unfold Watch.done at hd
            simpa [bne] using hd

/-- Cancelling the play watch preserves the pause-slot invariant. -/
theorem pauseSlotOk_cancelLivePlayWatch (s : BTState) (h : pauseSlotOk s = true) :
    pauseSlotOk (cancelLivePlayWatch s) = true := by
  unfold pauseSlotOk
  rw [cancelLivePlayWatch_pause]
  exact h

/-- C1 (code_bug): `play_watch`'s guard tests the PAUSE watch's `done()` flag
(line 118 reads `self.lms_pause_watch.done()` where the symmetric
`pause_watch` reads its own slot).  With a pending play watch (id 1) in the
slot and a done pause watch, the call is not a no-op: it replaces the pending
play watch with a fresh future (id 2).  With a pending play watch and an
empty pause slot, the call instead raises `AttributeError`. -/
theorem claim_C1_play_watch_guard_bug :
    play_watch ⟨some ⟨0, WatchPred.modeNotPlay, WatchState.resolved⟩,
                some ⟨1, WatchPred.modeIsPlay, WatchState.pending⟩, 2⟩
      = Except.ok ⟨some ⟨0, WatchPred.modeNotPlay, WatchState.resolved⟩,
                   some ⟨2, WatchPred.modeIsPlay, WatchState.pending⟩, 3⟩
    ∧ play_watch ⟨none, some ⟨1, WatchPred.modeIsPlay, WatchState.pending⟩, 2⟩
      = Except.error "AttributeError" :=
  ⟨rfl, rfl⟩

/-- C2: when a pause watch resolves, the handler re-reads the sink's mode and
the source's status and sends `pause` to the source iff the mode is not
`"play"` and the status is `"playing"`; in every other combination no command
is issued to either endpoint, and the watch slots are not touched beyond the
resolution itself. -/
theorem claim_C2_pause_resolution_iff (mode st : String) (s : BTState) :
    on_pause_watch_resolved mode (some st) s =
      { state := resolvePauseWatch s,
        cmds := if mode != "play" && st == "playing" then [Cmd.srcPause] else [],
        error := none } := by
  unfold on_pause_watch_resolved pause_if_playing
  cases hm : mode == "play" with
  | false => cases hst : st == "playing" with
    | false => simp [bne, hm, hst]
    | true => simp [bne, hm, hst]
  | true => simp [bne, hm]

/-- C4 counterexample: with the sink re-read as not playing (`"pause"`) and
the source re-read as `"playing"`, the resolving pause-watch handler DOES
issue a pause command to the source — the claim's "no command is issued to
the source" is false on the code. -/
theorem claim_C4_counterexample :
    (on_pause_watch_resolved "pause" (some "playing")
        ⟨some ⟨0, WatchPred.modeNotPlay, WatchState.pending⟩, none, 1⟩).cmds
      = [Cmd.srcPause] :=
  rfl

/-- C4 (amended): in that scenario the handler issues exactly one pause
command to the source (this is precisely the reconfirmation success case),
and the only state change is the pause watch resolving — it stays done and is
not re-armed by this path. -/
theorem claim_C4_amended (mode : String) (s : BTState) (h : mode ≠ "play") :
    (on_pause_watch_resolved mode (some "playing") s).cmds = [Cmd.srcPause]
    ∧ (on_pause_watch_resolved mode (some "playing") s).state = resolvePauseWatch s
    ∧ (on_pause_watch_resolved mode (some "playing") s).error = none := by
  have hm : (mode == "play") = false := by
    rw [beq_eq_false_iff_ne]
    exact h
  unfold on_pause_watch_resolved pause_if_playing
  simp [bne, hm]

/-- C4 amended witness at mode `"pause"`. -/
theorem claim_C4_amended_witness :
    ("pause" : String) ≠ "play"
    ∧ (on_pause_watch_resolved "pause" (some "playing") ⟨none, none, 0⟩).cmds
        = [Cmd.srcPause] :=
  ⟨by decide, (claim_C4_amended "pause" ⟨none, none, 0⟩ (by decide)).1⟩

/-- C5 counterexample: with the sink confirmed playing and the source status
`"stopped"` (a not-playing value other than `"paused"`), the resolving
play-watch handler issues NO play command — the claim's "for every source
status value other than playing ... play is issued" is false on the code,
which tests `status == "paused"` exactly. -/
theorem claim_C5_counterexample :
    (on_play_watch_resolved "play" (some "stopped")
        ⟨none, some ⟨0, WatchPred.modeIsPlay, WatchState.pending⟩, 1⟩).cmds = [] :=
  rfl

/-- C5 (amended): when a play watch resolves, the handler sends `play` to the
source iff the re-read sink mode is `"play"` and the re-read source status is
exactly `"paused"`; any other status (including `"stopped"`) issues nothing. -/
theorem claim_C5_amended (mode st : String) (s : BTState) :
    on_play_watch_resolved mode (some st) s =
      { state := resolvePlayWatch s,
        cmds := if mode == "play" && st == "paused" then [Cmd.srcPlay] else [],
        error := none } := by
  unfold on_play_watch_resolved play_if_paused
  cases hm : mode == "play" with
  | false => simp [hm]
  | true => cases hst : st == "paused" with
    | false => simp [hm, hst]
    | true => simp [hm, hst]

end LmsBt

namespace LmsBt

/-- C3: on every source transition to playing (a Status notification with
value `"playing"`), the handler cancels a live play watch, derives the MAC
from the device object path, issues `load` with a stream id containing that
MAC and then `play` to the sink, raises nothing, and leaves a pending pause
watch (predicate: mode not `"play"`) armed. -/
theorem claim_C3_source_playing (path mac : String) (s : BTState)
    (hmac : macFromPathStr path = some mac)
    (hslot : pauseSlotOk s = true) :
    (handle_status path "playing" s).error = none
    ∧ (handle_status path "playing" s).cmds =
        [Cmd.loadUrl ("wavin:bluealsa:DEV=" ++ mac), Cmd.play]
    ∧ (∀ w : Watch, s.lms_play_watch = some w → w.state = WatchState.pending →
          (handle_status path "playing" s).state.lms_play_watch =
            some { w with state := WatchState.cancelled })
    ∧ (∃ w : Watch, (handle_status path "playing" s).state.lms_pause_watch = some w
          ∧ w.pred = WatchPred.modeNotPlay ∧ w.state = WatchState.pending) := by
  have hplay : handle_status path "playing" s =
      { state := pause_watch (cancelLivePlayWatch s),
        cmds := [Cmd.loadUrl ("wavin:bluealsa:DEV=" ++ mac), Cmd.play],
        error := none } := by
    show lms_play path s = _
    unfold lms_play
    rw [hmac]
  rw [hplay]
  refine ⟨rfl, rfl, ?_, ?_⟩
  · intro w hw hpend
    have hdone : w.done = false := by simp [Watch.done, hpend]
    simp [pause_watch_play, cancelLivePlayWatch, hw, hdone]
  · exact pause_watch_pending _ (pauseSlotOk_cancelLivePlayWatch s hslot)

/-- C3 witness at the spec's device path and a fresh pairing state. -/
theorem claim_C3_source_playing_witness :
    macFromPathStr "/org/bluez/hci0/dev_AA_BB_CC_DD_EE_FF" = some "AA:BB:CC:DD:EE:FF"
    ∧ pauseSlotOk ⟨none, none, 0⟩ = true
    ∧ (handle_status "/org/bluez/hci0/dev_AA_BB_CC_DD_EE_FF" "playing"
          ⟨none, none, 0⟩).cmds =
        [Cmd.loadUrl ("wavin:bluealsa:DEV=" ++ "AA:BB:CC:DD:EE:FF"), Cmd.play] :=
  ⟨by decide, by decide,
    (claim_C3_source_playing "/org/bluez/hci0/dev_AA_BB_CC_DD_EE_FF" "AA:BB:CC:DD:EE:FF"
      ⟨none, none, 0⟩ (by decide) (by decide)).2.1⟩

/-- C6: discovery-time initialization.  (1) If the source status reads
`"playing"`, the Source-to-Playing transition (`lms_play`) runs immediately.
Otherwise, when the LMS url already names a bluealsa stream: (2) LMS mode
`"play"` arms a pause watch directly and issues no command; (3) LMS mode not
`"play"` (and an empty play slot) arms a play watch and issues no command. -/
theorem claim_C6_discovery_init (st mode : String) (url : Option String)
    (path : String) (s : BTState) :
    (find_player_init (some "playing") mode url path s = lms_play path s)
    ∧ (st ≠ "playing" → urlHasBluealsa url = true → mode = "play" →
        find_player_init (some st) mode url path s =
          { state := pause_watch s, cmds := [], error := none })
    ∧ (st ≠ "playing" → urlHasBluealsa url = true → mode ≠ "play" →
        s.lms_play_watch = none →
        find_player_init (some st) mode url path s =
          { state := { s with
              lms_play_watch := some ⟨s.nextId, WatchPred.modeIsPlay, WatchState.pending⟩,
              nextId := s.nextId + 1 },
            cmds := [], error := none }) := by
  refine ⟨rfl, ?_, ?_⟩
  · intro hst hurl hmode
    have h1 : (st == "playing") = false := by rw [beq_eq_false_iff_ne]; exact hst
    have h2 : (mode == "play") = true := by rw [beq_iff_eq]; exact hmode
    simp [find_player_init, find_player_rest, h1, h2, hurl]
  · intro hst hurl hmode hplw
    have h1 : (st == "playing") = false := by rw [beq_eq_false_iff_ne]; exact hst
    have h2 : (mode == "play") = false := by rw [beq_eq_false_iff_ne]; exact hmode
    simp [find_player_init, find_player_rest, play_watch, h1, h2, hurl, hplw]

/-- C6 witness: reattachment with the sink already on this source's bluealsa
stream and playing arms the pause watch with no load or play command. -/
theorem claim_C6_discovery_init_witness :
    ("paused" : String) ≠ "playing"
    ∧ urlHasBluealsa (some "wavin:bluealsa:DEV=AA:BB:CC:DD:EE:FF") = true
    ∧ find_player_init (some "paused") "play"
        (some "wavin:bluealsa:DEV=AA:BB:CC:DD:EE:FF") "/p" ⟨none, none, 0⟩
        = { state := pause_watch ⟨none, none, 0⟩, cmds := [], error := none } :=
  ⟨by decide, by decide,
    (claim_C6_discovery_init "paused" "play"
        (some "wavin:bluealsa:DEV=AA:BB:CC:DD:EE:FF") "/p" ⟨none, none, 0⟩).2.1
      (by decide) (by decide) rfl⟩

/-- C7 counterexample: delivering the `"playing"` status twice in a row from a
fresh pairing DOES issue the load and play commands again on the second
delivery — `lms_play` sends them unconditionally — so the claim's "no
duplicate load/play command on the second delivery" is false on the code. -/
theorem claim_C7_counterexample :
    (handle_status "/org/bluez/hci0/dev_AA_BB_CC_DD_EE_FF" "playing"
        (handle_status "/org/bluez/hci0/dev_AA_BB_CC_DD_EE_FF" "playing"
          ⟨none, none, 0⟩).state).cmds
      = [Cmd.loadUrl "wavin:bluealsa:DEV=AA:BB:CC:DD:EE:FF", Cmd.play] := by
  decide

/-- C7 (amended): the second delivery does re-issue load and play to the sink,
but it creates no second watch: the pause watch armed by the first delivery
(id `n`, still pending) is left as the single live watch and the state is
unchanged by the second delivery. -/
theorem claim_C7_amended (path mac : String) (n : Nat)
    (hmac : macFromPathStr path = some mac) :
    (handle_status path "playing" ⟨none, none, n⟩).state
        = ⟨some ⟨n, WatchPred.modeNotPlay, WatchState.pending⟩, none, n + 1⟩
    ∧ handle_status path "playing"
        ⟨some ⟨n, WatchPred.modeNotPlay, WatchState.pending⟩, none, n + 1⟩
        = { state := ⟨some ⟨n, WatchPred.modeNotPlay, WatchState.pending⟩, none, n + 1⟩,
            cmds := [Cmd.loadUrl ("wavin:bluealsa:DEV=" ++ mac), Cmd.play],
            error := none } := by
  constructor
  · show (lms_play path ⟨none, none, n⟩).state = _
    unfold lms_play
    rw [hmac]
    rfl
  · show lms_play path ⟨some ⟨n, WatchPred.modeNotPlay, WatchState.pending⟩, none, n + 1⟩ = _
    unfold lms_play
    rw [hmac]
    rfl

/-- C7 amended witness at the spec's device path. -/
theorem claim_C7_amended_witness :
    macFromPathStr "/org/bluez/hci0/dev_AA_BB_CC_DD_EE_FF" = some "AA:BB:CC:DD:EE:FF"
    ∧ handle_status "/org/bluez/hci0/dev_AA_BB_CC_DD_EE_FF" "playing"
        ⟨some ⟨0, WatchPred.modeNotPlay, WatchState.pending⟩, none, 1⟩
        = { state := ⟨some ⟨0, WatchPred.modeNotPlay, WatchState.pending⟩, none, 1⟩,
            cmds := [Cmd.loadUrl ("wavin:bluealsa:DEV=" ++ "AA:BB:CC:DD:EE:FF"), Cmd.play],
            error := none } :=
  ⟨by decide,
    (claim_C7_amended "/org/bluez/hci0/dev_AA_BB_CC_DD_EE_FF" "AA:BB:CC:DD:EE:FF" 0
      (by decide)).2⟩

/-- C8 counterexample: in the pause-watch resolution handler a failed status
read (`DBusError`, modelled by `none`) is NOT treated as not playing — it
escapes the handler uncaught, so the claim's "at every point ... including
the watch-resolution re-confirmation handlers" is false on the code. -/
theorem claim_C8_counterexample :
    (pause_if_playing "pause" none ⟨none, none, 0⟩).error = some "DBusError" :=
  rfl

/-- C8 (amended): only the discovery-time status read catches `DBusError` and
continues as not playing (no error escapes `find_player` on a fresh pairing);
in the re-confirmation handlers a failed status read issues no command but
propagates out of the handler uncaught. -/
theorem claim_C8_amended (mode : String) (url : Option String) (path : String)
    (n : Nat) (s : BTState) :
    ((find_player_init none mode url path ⟨none, none, n⟩).error = none)
    ∧ (mode ≠ "play" →
        pause_if_playing mode none s = { state := s, cmds := [], error := some "DBusError" })
    ∧ play_if_paused "play" none s = { state := s, cmds := [], error := some "DBusError" } := by
  refine ⟨?_, ?_, rfl⟩
  · show (find_player_rest mode url ⟨none, none, n⟩).error = none
    unfold find_player_rest
    cases hurl : urlHasBluealsa url with
    | false => simp [hurl]
    | true =>
        cases hm : mode == "play" with
        | true => simp [hurl, hm]
        | false => simp [hurl, hm, play_watch]
  · intro h
    have hm : (mode == "play") = false := by rw [beq_eq_false_iff_ne]; exact h
    unfold pause_if_playing
    simp [bne, hm]

/-- C8 amended witness at mode `"pause"`. -/
theorem claim_C8_amended_witness :
    ("pause" : String) ≠ "play"
    ∧ pause_if_playing "pause" none ⟨none, none, 0⟩
        = { state := ⟨none, none, 0⟩, cmds := [], error := some "DBusError" } :=
  ⟨by decide, (claim_C8_amended "pause" none "/p" 0 ⟨none, none, 0⟩).2.1 (by decide)⟩

/-- C9 counterexample: a periodic recheck that finds no players completes and
assigns `None` — but the FOLLOWING cycle raises `AttributeError` on
`player.power` before any retry, even though a player is available again, so
the claim's "retried on a later cycle without crashing" is false on the code. -/
theorem claim_C9_counterexample :
    recheck_cycle (some ⟨"A", false⟩) [] none = Except.ok none
    ∧ recheck_cycle none [⟨"B", true⟩] (some ⟨"B", true⟩)
        = Except.error "AttributeError" :=
  ⟨rfl, rfl⟩

/-- C9 (amended): at startup a failed player selection is fatal (the assert
raises `AssertionError`); at the periodic recheck the failing cycle itself
completes, assigning `None`, but the search is not retried — the next cycle
raises `AttributeError` reading the missing player's power. -/
theorem claim_C9_amended (d : Option Player) (p : Player) (ps : List Player) :
    main_startup [] d = Except.error "AssertionError"
    ∧ (p.power = false → recheck_cycle (some p) [] d = Except.ok none)
    ∧ recheck_cycle none ps d = Except.error "AttributeError" := by
  refine ⟨rfl, ?_, rfl⟩
  intro h
  unfold recheck_cycle
  simp [h, find_active_player]

/-- C9 amended witness with a powered-off player and an empty server. -/
theorem claim_C9_amended_witness :
    (⟨"A", false⟩ : Player).power = false
    ∧ recheck_cycle (some ⟨"A", false⟩) [] none = Except.ok none :=
  ⟨rfl, (claim_C9_amended none ⟨"A", false⟩ []).2.1 rfl⟩

/-- C10: for any device object path not containing `dev_`, the
Source-to-Playing transition raises `IndexError` before issuing any load or
play command to the sink (the only state change being the play-watch
cancellation that precedes the derivation). -/
theorem claim_C10_no_dev_in_path (path : String) (s : BTState)
    (h : containsPat ("dev_".data) path.data = false) :
    lms_play path s =
      { state := cancelLivePlayWatch s, cmds := [], error := some "IndexError" } := by
  unfold lms_play
  rw [macFromPathStr_none path h]

/-- C10 witness at a path with no `dev_` marker. -/
theorem claim_C10_no_dev_in_path_witness :
    containsPat ("dev_".data) ("/org/bluez/hci0/device".data) = false
    ∧ lms_play "/org/bluez/hci0/device" ⟨none, none, 0⟩
        = { state := ⟨none, none, 0⟩, cmds := [], error := some "IndexError" } :=
  ⟨by decide,
    claim_C10_no_dev_in_path "/org/bluez/hci0/device" ⟨none, none, 0⟩ (by decide)⟩

end LmsBt
